import Mathlib

/-!
# js-concept: `variables.js` and `funtions.js`

A verification development for the two annotated scripts of the repository.

* Part 1 models the Number values the scripts compute with (integer-valued
  IEEE-754 doubles, the infinities and NaN) and the value-level functions of
  `funtions.js`: `addNumbers`, `multiply`, `sumAll`, `outerFunction` and the
  generator `generateSequence`.
* Part 2 models the sequential evaluator: bindings with their three-state
  lifecycle, the scope chain, a heap for records and arrays, the console, and
  the statement forms the scripts use (`var`/`let`/`const` declarations,
  function declarations, blocks, `try`/`catch`, assignments, calls).
* Part 3 transcribes `variables.js` (whole file) and `funtions.js`
  (lines 1-85, the part that exercises hoisting) statement by statement.
* Part 4 states and proves the properties.
-/

set_option exponentiation.threshold 1100

namespace JsConcept

/-! ## Part 1: Number values and the value-level functions of `funtions.js` -/

/-- A JavaScript Number restricted to the values reachable from integers with
`+` and `*`: integer-valued doubles, the two infinities and NaN.  The two zeros
`+0` and `-0` are identified (they are equal under `===`).  The integer held by
`fin` is meant to be a double (`Number.wellFormed`); integers enter through
`Number.ofInt`, and the operations keep the invariant. -/
inductive Number where
  | fin (n : Int)
  | posInf
  | negInf
  | nan
  deriving DecidableEq, Repr

/-- Number of low-order bits of `m` that do not fit a 53-bit significand:
`0` when `m < 2^53`, otherwise `bitLength m - 53`.  The first argument is fuel. -/
def excessBits : Nat → Nat → Nat
  | 0, _ => 0
  | fuel + 1, m => if m < 9007199254740992 then 0 else excessBits fuel (m / 2) + 1

/-- IEEE-754 round-to-nearest, ties-to-even, of a natural number to a 53-bit
significand (unbounded exponent). -/
def roundMagnitude (m : Nat) : Nat :=
  let shift := excessBits m m
  let q := m / 2 ^ shift
  let r := m % 2 ^ shift
  let half := 2 ^ (shift - 1)
  let q' := if shift ≠ 0 ∧ (r > half ∨ (r = half ∧ q % 2 = 1)) then q + 1 else q
  q' * 2 ^ shift

/-- The double nearest to the exact integer `n`; magnitudes that round to
`2^1024` or more overflow to an infinity. -/
def roundToDouble (n : Int) : Number :=
  let m := roundMagnitude n.natAbs
  if m ≥ 2 ^ 1024 then (if n < 0 then .negInf else .posInf)
  else if n < 0 then .fin (-(m : Int)) else .fin m

/-- An integer that is a Number value (an integer-valued double): its
magnitude is below `2^1024` and has no set bit below its 53 most significant
ones. -/
def isDouble (n : Int) : Prop :=
  n.natAbs < 2 ^ 1024 ∧ n.natAbs % 2 ^ excessBits n.natAbs n.natAbs = 0

instance (n : Int) : Decidable (isDouble n) :=
  inferInstanceAs (Decidable (_ ∧ _))

/-- The invariant of the representation: a finite Number holds an integer that
is a double.  `roundToDouble`, and with it `+` and `*`, only produce such
values. -/
def Number.wellFormed : Number → Prop
  | .fin n => isDouble n
  | _ => True

/-- The Number an integer literal or integer argument denotes: the nearest
double (the literal `9007199254740993` denotes `9007199254740992`). -/
def Number.ofInt (n : Int) : Number := roundToDouble n

/-- The `+` operator on Numbers. -/
def Number.add : Number → Number → Number
  | .fin a, .fin b => roundToDouble (a + b)
  | .nan, _ => .nan
  | _, .nan => .nan
  | .posInf, .negInf => .nan
  | .negInf, .posInf => .nan
  | .posInf, _ => .posInf
  | _, .posInf => .posInf
  | .negInf, _ => .negInf
  | _, .negInf => .negInf

/-- Sign of a Number other than NaN: `1`, `0` or `-1`. -/
def Number.sign : Number → Int
  | .fin n => Int.sign n
  | .posInf => 1
  | .negInf => -1
  | .nan => 0

/-- The `*` operator on Numbers. -/
def Number.mul : Number → Number → Number
  | .fin a, .fin b => roundToDouble (a * b)
  | .nan, _ => .nan
  | _, .nan => .nan
  | x, y =>
    let sgn := x.sign * y.sign
    if sgn = 0 then .nan else if sgn < 0 then .negInf else .posInf

/-- The `/` operator on Numbers, for the case the model covers: a finite
dividend and a non-zero finite divisor with an integer quotient.  Every other
quotient (fractional, or involving a zero divisor, an infinity or NaN) lies
outside the modelled values and gives `none`. -/
def Number.div : Number → Number → Option Number
  | .fin a, .fin b => if b ≠ 0 ∧ a % b = 0 then some (roundToDouble (a / b)) else none
  | _, _ => none

/-- `const addNumbers = (a, b) => a + b;` (`funtions.js`, line 38). -/
def addNumbers (a b : Number) : Number := a.add b

/-- `function multiply(a, b) { return a * b; }` (`funtions.js`, lines 73-75). -/
def multiply (a b : Number) : Number := a.mul b

/-- `const divide = (a, b) => a / b;` (`funtions.js`, line 84). -/
def divide (a b : Number) : Option Number := a.div b

/-- `function sumAll(...numbers) { return numbers.reduce((acc, num) => acc + num, 0); }`
(`funtions.js`, lines 106-108); the rest parameter is the list of arguments. -/
def sumAll (numbers : List Number) : Number :=
  numbers.foldl (fun acc num => acc.add num) (.fin 0)

/-- `function outerFunction(outerValue) { return function innerFunction(innerValue)
{ return outerValue + innerValue; }; }` (`funtions.js`, lines 119-123). -/
def outerFunction (outerValue : Number) : Number → Number :=
  fun innerValue => outerValue.add innerValue

/-- `const addWith5 = outerFunction(5);` (`funtions.js`, line 125). -/
def addWith5 : Number → Number := outerFunction (.fin 5)

/-- Resumption point of an instance of `generateSequence` (`funtions.js`,
lines 193-197): not yet started, suspended at one of the three `yield`s, or
completed. -/
inductive Generator where
  | suspendedStart
  | suspendedYield1
  | suspendedYield2
  | suspendedYield3
  | completed
  deriving DecidableEq, Repr

/-- The object `{ value, done }` returned by `next()`; `value = none` is
`undefined`. -/
structure IteratorResult where
  value : Option Number
  done : Bool
  deriving DecidableEq, Repr

/-- Calling `generateSequence()` creates an instance and runs none of the body. -/
def generateSequence : Generator := .suspendedStart

/-- One `next()` request: run the body from the resumption point up to the
next `yield` (or to the end of the body). -/
def Generator.next : Generator → IteratorResult × Generator
  | .suspendedStart => (⟨some (.fin 1), false⟩, .suspendedYield1)
  | .suspendedYield1 => (⟨some (.fin 2), false⟩, .suspendedYield2)
  | .suspendedYield2 => (⟨some (.fin 3), false⟩, .suspendedYield3)
  | .suspendedYield3 => (⟨none, true⟩, .completed)
  | .completed => (⟨none, true⟩, .completed)

/-- The instance after `n` successive `next()` requests. -/
def Generator.after (g : Generator) : Nat → Generator
  | 0 => g
  | n + 1 => (g.after n).next.2

/-- The result of the `n`-th `next()` request on `g`, counting from `1`. -/
def Generator.nthResult (g : Generator) (n : Nat) : IteratorResult :=
  (g.after (n - 1)).next.1

/-! ## Part 2: the sequential evaluator -/

/-- The two error classes the scripts provoke: `ReferenceError` (the spec's
`UninitializedAccessError`) and `TypeError` (the spec's
`ImmutableReassignmentError`). -/
inductive ErrorKind where
  | referenceError
  | typeError
  deriving DecidableEq, Repr

/-- A dynamically typed value.  Records and arrays live on the heap and are
held by reference; a function value is identified by its label in the
script's function table; an error object carries its class and message. -/
inductive Value where
  | undefined
  | null
  | bool (b : Bool)
  | num (n : Number)
  | str (s : String)
  | symbol (id : Nat)
  | ref (addr : Nat)
  | func (label : String)
  | error (kind : ErrorKind) (message : String)
  deriving DecidableEq, Repr

/-- How a binding was declared. -/
inductive DeclKind where
  | varKind
  | letKind
  | constKind
  | functionKind
  | parameter
  deriving DecidableEq, Repr

/-- A named variable of a scope.  `value = none` is the created-but-uninitialized
state (the temporal dead zone). -/
structure Binding where
  name : String
  kind : DeclKind
  value : Option Value
  deriving DecidableEq, Repr

/-- One lexical frame. -/
abbrev Scope := List Binding

/-- A heap object: a record (ordered fields) or an array. -/
inductive HeapObj where
  | record (fields : List (String × Value))
  | array (elems : List Value)
  deriving DecidableEq, Repr

/-- What `console.log` shows for one argument: a primitive as is, a record or an
array with its contents at the time of the call. -/
inductive Printed where
  | prim (v : Value)
  | record (fields : List (String × Value))
  | array (elems : List Value)
  deriving DecidableEq, Repr

/-- The evaluator state: the scope chain (innermost frame first, the script's
top-level frame last), the heap, the console lines printed so far, the pending
timers, the number of symbols created, and two logs kept for the proofs: the
source lines of the statements started so far and the errors caught so far
(with the line of the catching `try`). -/
structure State where
  scopes : List Scope
  heap : List HeapObj
  console : List (List Printed)
  timers : List (Value × Number)
  symbols : Nat
  trace : List Nat
  caught : List (Nat × Value)
  deriving DecidableEq, Repr

/-- Outcome of evaluating an expression or statement: normal completion with a
result, a thrown value, a `return`, or `unsupported` when evaluation leaves
the fragment of the language that is modelled. -/
inductive Completion (α : Type) where
  | normal (result : α) (s : State)
  | thrown (err : Value) (s : State)
  | returned (result : Value) (s : State)
  | unsupported
  deriving DecidableEq, Repr

/-- An evaluation step: a state transformer that may complete abruptly. -/
def Eval (α : Type) : Type := State → Completion α

/-- Normal completion with a value, state unchanged. -/
def Eval.pure {α : Type} (a : α) : Eval α := fun s => .normal a s

/-- Sequencing: abrupt completions of the first step skip the second. -/
def Eval.bind {α β : Type} (m : Eval α) (f : α → Eval β) : Eval β := fun s =>
  match m s with
  | .normal a s' => f a s'
  | .thrown e s' => .thrown e s'
  | .returned v s' => .returned v s'
  | .unsupported => .unsupported

instance : Monad Eval where
  pure := Eval.pure
  bind := Eval.bind

/-- Throw a value. -/
def throwValue {α : Type} (e : Value) : Eval α := fun s => .thrown e s

/-- Leave the modelled fragment. -/
def unsupported {α : Type} : Eval α := fun _ => .unsupported

/-- The binding named `x` in a frame, if any. -/
def Scope.find (x : String) : Scope → Option Binding
  | [] => none
  | b :: rest => if b.name = x then some b else Scope.find x rest

/-- Identifier resolution: the first frame of the chain (innermost first) that
has a binding named `x`. -/
def lookup (x : String) : List Scope → Option Binding
  | [] => none
  | sc :: rest =>
    match sc.find x with
    | some b => some b
    | none => lookup x rest

/-- Replace the value of the binding named `x` in a frame. -/
def Scope.set (x : String) (v : Value) : Scope → Scope
  | [] => []
  | b :: rest => if b.name = x then { b with value := some v } :: rest else b :: Scope.set x v rest

/-- Replace the value of the binding `x` resolves to. -/
def setBinding (x : String) (v : Value) : List Scope → List Scope
  | [] => []
  | sc :: rest =>
    match sc.find x with
    | some _ => sc.set x v :: rest
    | none => sc :: setBinding x v rest

/-- The `ReferenceError` for a read or write in the temporal dead zone. -/
def uninitializedAccessError (x : String) : Value :=
  .error .referenceError ("Cannot access '" ++ x ++ "' before initialization")

/-- The `ReferenceError` for an identifier that resolves to no binding. -/
def notDefinedError (x : String) : Value :=
  .error .referenceError (x ++ " is not defined")

/-- The `TypeError` for a write to an initialized `const` binding. -/
def immutableReassignmentError : Value :=
  .error .typeError "Assignment to constant variable."

/-- Reading the identifier `x`. -/
def readVar (x : String) : Eval Value := fun s =>
  match lookup x s.scopes with
  | none => .thrown (notDefinedError x) s
  | some b =>
    match b.value with
    | none => .thrown (uninitializedAccessError x) s
    | some v => .normal v s

/-- Storing `v` through the identifier `x` (the write of `x = v`).  A write to
an identifier that resolves to no binding would create a global in sloppy mode;
the scripts never do that and it is left out of the model. -/
def assignVar (x : String) (v : Value) : Eval Unit := fun s =>
  match lookup x s.scopes with
  | none => .unsupported
  | some b =>
    match b.value with
    | none => .thrown (uninitializedAccessError x) s
    | some _ =>
      if b.kind = .constKind then .thrown immutableReassignmentError s
      else .normal () { s with scopes := setBinding x v s.scopes }

/-- Initializing the binding `x` when its `let`/`const` declaration (or the
initializer of its `var` declaration) executes. -/
def initBinding (x : String) (v : Value) : Eval Unit := fun s =>
  match lookup x s.scopes with
  | none => .unsupported
  | some _ => .normal () { s with scopes := setBinding x v s.scopes }

/-- The `typeof` operator applied to a value. -/
def typeOf : Value → String
  | .undefined => "undefined"
  | .null => "object"
  | .bool _ => "boolean"
  | .num _ => "number"
  | .str _ => "string"
  | .symbol _ => "symbol"
  | .ref _ => "object"
  | .func _ => "function"
  | .error _ _ => "object"

/-- The expression `typeof x` for an identifier `x`: an unresolvable identifier
gives `"undefined"`, a binding in its temporal dead zone still throws. -/
def typeofVar (x : String) : Eval Value := fun s =>
  match lookup x s.scopes with
  | none => .normal (.str "undefined") s
  | some _ =>
    match readVar x s with
    | .normal v s' => .normal (.str (typeOf v)) s'
    | .thrown e s' => .thrown e s'
    | .returned v s' => .returned v s'
    | .unsupported => .unsupported

/-- String conversion of a value inside a template literal.  Integers up to
`2^53` in magnitude print as their decimal digits; a symbol throws; the
conversions of objects, functions and larger or non-finite numbers are not
modelled. -/
def toStringValue : Value → Eval String
  | .undefined => pure "undefined"
  | .null => pure "null"
  | .bool b => pure (if b then "true" else "false")
  | .num (.fin n) => if n.natAbs ≤ 9007199254740992 then pure (toString n) else unsupported
  | .num _ => unsupported
  | .str s => pure s
  | .symbol _ => throwValue (.error .typeError "Cannot convert a Symbol value to a string")
  | .ref _ => unsupported
  | .func _ => unsupported
  | .error _ _ => unsupported

/-- A template literal: literal chunks interleaved with substitutions,
`quasis.length = exprs.length + 1`. -/
def templateLiteral : List String → List (Eval Value) → Eval Value
  | [q], [] => pure (.str q)
  | q :: qs, e :: es => do
    let v ← e
    let t ← toStringValue v
    let rest ← templateLiteral qs es
    match rest with
    | .str r => pure (.str (q ++ t ++ r))
    | _ => unsupported
  | _, _ => unsupported

/-- Evaluate argument expressions left to right. -/
def evalArgs : List (Eval Value) → Eval (List Value)
  | [] => pure []
  | e :: es => do
    let v ← e
    let vs ← evalArgs es
    pure (v :: vs)

/-- What the console shows for a value in state `s`. -/
def printValue (s : State) : Value → Option Printed
  | .ref a =>
    match s.heap.get? a with
    | some (.record fields) => some (.record fields)
    | some (.array elems) => some (.array elems)
    | none => none
  | v => some (.prim v)

/-- All the values printed, or `none` if one is a dangling reference. -/
def printValues (s : State) : List Value → Option (List Printed)
  | [] => some []
  | v :: vs =>
    match printValue s v, printValues s vs with
    | some p, some ps => some (p :: ps)
    | _, _ => none

/-- The call `console.log(args...)`: appends one line to the console. -/
def consoleLog (args : List (Eval Value)) : Eval Value := do
  let vs ← evalArgs args
  fun s =>
    match printValues s vs with
    | some ps => .normal .undefined { s with console := s.console ++ [ps] }
    | none => .unsupported

/-- A record literal `{ k1: e1, ... }`: allocates a fresh heap object. -/
def recordLiteral (fields : List (String × Value)) : Eval Value := fun s =>
  .normal (.ref s.heap.length) { s with heap := s.heap ++ [.record fields] }

/-- An array literal `[e1, ...]`: allocates a fresh heap object. -/
def arrayLiteral (elems : List Value) : Eval Value := fun s =>
  .normal (.ref s.heap.length) { s with heap := s.heap ++ [.array elems] }

/-- Update or add a field of a record. -/
def setField (key : String) (v : Value) : List (String × Value) → List (String × Value)
  | [] => [(key, v)]
  | (k, w) :: rest => if k = key then (k, v) :: rest else (k, w) :: setField key v rest

/-- The assignment `obj.key = rhs` where `obj` evaluates to a record. -/
def memberAssign (obj : Eval Value) (key : String) (rhs : Eval Value) : Eval Value := do
  let o ← obj
  let v ← rhs
  fun s =>
    match o with
    | .ref a =>
      match s.heap.get? a with
      | some (.record fields) =>
        .normal v { s with heap := s.heap.set a (.record (setField key v fields)) }
      | _ => .unsupported
    | _ => .unsupported

/-- The call `arr.push(arg)` where `arr` evaluates to an array; the result is
the new length. -/
def arrayPush (arr : Eval Value) (arg : Eval Value) : Eval Value := do
  let o ← arr
  let v ← arg
  fun s =>
    match o with
    | .ref a =>
      match s.heap.get? a with
      | some (.array elems) =>
        .normal (.num (.fin (elems.length + 1)))
          { s with heap := s.heap.set a (.array (elems ++ [v])) }
      | _ => .unsupported
    | _ => .unsupported

/-- The call `Symbol()`: a fresh symbol. -/
def symbolCall : Eval Value := fun s =>
  .normal (.symbol s.symbols) { s with symbols := s.symbols + 1 }

/-- The call `setTimeout(callback, delay)`: queues the callback; it runs after
the script's synchronous part has finished.  The timer handle it returns is
discarded by the script and modelled as `undefined`. -/
def setTimeoutCall (callback : Eval Value) (delay : Number) : Eval Value := do
  let cb ← callback
  fun s => .normal .undefined { s with timers := s.timers ++ [(cb, delay)] }

/-- A statement: its source line, the block-scoped declarations it contributes
to the enclosing block (`let`/`const` uninitialized, function declarations
already initialized), the `var` names it hoists to the enclosing function or
script, the lines of the statements nested in it (flagged `true` when they are
inside a `try` block or a `catch` handler), and its execution. -/
structure Stmt where
  line : Nat
  lexical : List Binding
  vars : List String
  nested : List (Nat × Bool)
  run : Eval Unit

/-- Execute statements in order, logging each as it starts; an abrupt
completion skips the rest. -/
def execStmts : List Stmt → Eval Unit
  | [] => pure ()
  | st :: rest => fun s =>
    match st.run { s with trace := s.trace ++ [st.line] } with
    | .normal _ s' => execStmts rest s'
    | .thrown e s' => .thrown e s'
    | .returned v s' => .returned v s'
    | .unsupported => .unsupported

/-- The frame a block creates on entry: the block-scoped declarations of its
statements. -/
def blockScope (body : List Stmt) : Scope :=
  body.flatMap (fun st => st.lexical)

/-- The frame a function body or a script creates on entry: every hoisted
`var` set to `undefined`, then the block-scoped declarations. -/
def hoist (body : List Stmt) : Scope :=
  (body.flatMap (fun st => st.vars)).map (fun x => ⟨x, .varKind, some .undefined⟩)
    ++ blockScope body

/-- The lines of a statement list and of everything nested in it, with the
inside-`try` flag. -/
def stmtLines (inTry : Bool) (body : List Stmt) : List (Nat × Bool) :=
  body.flatMap (fun st => (st.line, inTry) :: st.nested.map (fun p => (p.1, inTry || p.2)))

/-- Run `m` with a new innermost frame `frame`, and drop that frame again
however `m` completes. -/
def inNewScope (frame : Scope) (m : Eval Unit) : Eval Unit := fun s =>
  match m { s with scopes := frame :: s.scopes } with
  | .normal _ s' => .normal () { s' with scopes := s'.scopes.tail }
  | .thrown e s' => .thrown e { s' with scopes := s'.scopes.tail }
  | .returned v s' => .returned v { s' with scopes := s'.scopes.tail }
  | .unsupported => .unsupported

/-- A block `{ ... }`. -/
def execBlock (body : List Stmt) : Eval Unit := inNewScope (blockScope body) (execStmts body)

/-- An expression statement. -/
def exprStmt (line : Nat) (e : Eval Value) : Stmt :=
  { line := line, lexical := [], vars := [], nested := [], run := do let _ ← e; pure () }

/-- The statement `var x = init;`. -/
def varDecl (line : Nat) (x : String) (init : Eval Value) : Stmt :=
  { line := line, lexical := [], vars := [x], nested := [],
    run := do let v ← init; initBinding x v }

/-- The statement `let x = init;`, or `let x;` when `init` is `none`. -/
def letDecl (line : Nat) (x : String) (init : Option (Eval Value)) : Stmt :=
  { line := line, lexical := [⟨x, .letKind, none⟩], vars := [], nested := [],
    run := do
      let v ← (match init with
        | some e => e
        | none => pure .undefined)
      initBinding x v }

/-- The statement `const x = init;`. -/
def constDecl (line : Nat) (x : String) (init : Eval Value) : Stmt :=
  { line := line, lexical := [⟨x, .constKind, none⟩], vars := [], nested := [],
    run := do let v ← init; initBinding x v }

/-- The assignment expression `x = rhs`: the right-hand side is evaluated, then
stored. -/
def assign (x : String) (rhs : Eval Value) : Eval Value := do
  let v ← rhs
  assignVar x v
  pure v

/-- The statement `if (cond) { body }` (no `else`); the scripts only use the
literal `true` as condition. -/
def ifStmt (line : Nat) (cond : Eval Value) (body : List Stmt) : Stmt :=
  { line := line, lexical := [], vars := body.flatMap (fun st => st.vars),
    nested := stmtLines false body,
    run := do
      let c ← cond
      match c with
      | .bool true => execBlock body
      | .bool false => pure ()
      | _ => unsupported }

/-- The statement `try { body } catch (param) { handler }`: a value thrown by
the body is logged as caught, bound to `param` in a new frame, and the handler
block runs in it. -/
def tryCatch (line : Nat) (body : List Stmt) (param : String) (handler : List Stmt) : Stmt :=
  { line := line, lexical := [],
    vars := body.flatMap (fun st => st.vars) ++ handler.flatMap (fun st => st.vars),
    nested := stmtLines true body ++ stmtLines true handler,
    run := fun s =>
      match execBlock body s with
      | .thrown e s' =>
        inNewScope [⟨param, .parameter, some e⟩] (execBlock handler)
          { s' with caught := s'.caught ++ [(line, e)] }
      | other => other }

/-- The statement `return e;`. -/
def returnStmt (line : Nat) (e : Eval Value) : Stmt :=
  { line := line, lexical := [], vars := [], nested := [],
    run := fun s =>
      match e s with
      | .normal v s' => .returned v s'
      | .thrown err s' => .thrown err s'
      | .returned v s' => .returned v s'
      | .unsupported => .unsupported }

/-- A function of a script: the label its function values carry, its
parameters and its body.  An arrow function with an expression body `=> e` has
the body `return e;`. -/
structure FunctionDef where
  label : String
  params : List String
  body : List Stmt

/-- A function declaration statement: the binding is created initialized when
the enclosing function or script is entered; executing the statement itself
does nothing. -/
def functionDecl (line : Nat) (d : FunctionDef) : Stmt :=
  { line := line, lexical := [⟨d.label, .functionKind, some (.func d.label)⟩], vars := [],
    nested := stmtLines false d.body, run := pure () }

/-- A function expression or arrow function: evaluates to a function value. -/
def functionExpr (d : FunctionDef) : Eval Value := pure (.func d.label)

/-- Parameters bound to the arguments of a call; a missing argument is
`undefined`, surplus arguments are dropped. -/
def bindParams : List String → List Value → Scope
  | [], _ => []
  | p :: ps, [] => ⟨p, .parameter, some .undefined⟩ :: bindParams ps []
  | p :: ps, a :: rest => ⟨p, .parameter, some a⟩ :: bindParams ps rest

/-- Calling the value `callee` with `args`.  Every function of the scripts is
created at the top level, so its body runs in a fresh frame (parameters and
hoisted declarations) on top of the script's top-level frame; the caller's
frames are put back afterwards.  Calling a non-function throws a `TypeError`. -/
def callFunction (table : List FunctionDef) (callee : Value) (args : List Value) :
    Eval Value := fun s =>
  match callee with
  | .func label =>
    match table.find? (fun d => d.label = label) with
    | none => .unsupported
    | some d =>
      let callerFrames := s.scopes.take (s.scopes.length - 1)
      let top := s.scopes.drop (s.scopes.length - 1)
      match execStmts d.body { s with scopes := (bindParams d.params args ++ hoist d.body) :: top } with
      | .normal _ s' => .normal .undefined { s' with scopes := callerFrames ++ s'.scopes.tail }
      | .returned v s' => .normal v { s' with scopes := callerFrames ++ s'.scopes.tail }
      | .thrown e s' => .thrown e { s' with scopes := callerFrames ++ s'.scopes.tail }
      | .unsupported => .unsupported
  | _ => .thrown (.error .typeError "callee is not a function") s

/-- The call expression `callee(args...)`: callee first, then the arguments
left to right, then the call. -/
def call (table : List FunctionDef) (callee : Eval Value) (args : List (Eval Value)) :
    Eval Value := do
  let f ← callee
  let vs ← evalArgs args
  callFunction table f vs

/-- The binary `+` on values: numeric addition or string concatenation; mixed
operands are not modelled. -/
def addValues (x y : Eval Value) : Eval Value := do
  let a ← x
  let b ← y
  match a, b with
  | .num m, .num n => pure (.num (m.add n))
  | .str m, .str n => pure (.str (m ++ n))
  | _, _ => unsupported

/-- The binary `*` on values, for numeric operands. -/
def mulValues (x y : Eval Value) : Eval Value := do
  let a ← x
  let b ← y
  match a, b with
  | .num m, .num n => pure (.num (m.mul n))
  | _, _ => unsupported

/-- The binary `/` on values, for numeric operands with a modelled quotient. -/
def divValues (x y : Eval Value) : Eval Value := do
  let a ← x
  let b ← y
  match a, b with
  | .num m, .num n =>
    match m.div n with
    | some q => pure (.num q)
    | none => unsupported
  | _, _ => unsupported

/-- A literal. -/
def lit (v : Value) : Eval Value := pure v

/-- The state in which a script starts: one top-level frame holding its
hoisted declarations, everything else empty. -/
def initialState (body : List Stmt) : State :=
  { scopes := [hoist body], heap := [], console := [], timers := [], symbols := 0,
    trace := [], caught := [] }

/-- Running the first `k` top-level statements of a script (all declarations
of the whole script are hoisted). -/
def runPrefix (body : List Stmt) (k : Nat) : Completion Unit :=
  execStmts (body.take k) (initialState body)

/-- Running a script from its first statement to its last. -/
def runScript (body : List Stmt) : Completion Unit :=
  execStmts body (initialState body)

/-! ## Part 3: the scripts -/

namespace Variables

/-- `function testVarScope() { ... }` (`variables.js`, lines 9-12). -/
def testVarScope : FunctionDef :=
  { label := "testVarScope", params := [],
    body := [
      varDecl 10 "localVar" (lit (.str "I am local to this function")),
      exprStmt 11 (consoleLog [readVar "localVar"]) ] }

/-- The functions of `variables.js`. -/
def functions : List FunctionDef := [testVarScope]

/-- The script `variables.js`, statement by statement. -/
def script : List Stmt := [
  exprStmt 4 (consoleLog [templateLiteral ["Before var declaration: ", ""] [readVar "myVar"]]),
  varDecl 5 "myVar" (lit (.str "I am a var variable")),
  exprStmt 6 (consoleLog [templateLiteral ["After var declaration: ", ""] [readVar "myVar"]]),
  functionDecl 9 testVarScope,
  exprStmt 13 (call functions (readVar "testVarScope") []),
  tryCatch 19
    [exprStmt 20 (consoleLog [templateLiteral ["Before let declaration: ", ""] [readVar "myLet"]])]
    "e" [exprStmt 22 (consoleLog [readVar "e"])],
  letDecl 25 "myLet" (some (lit (.str "I am a let variable"))),
  exprStmt 26 (consoleLog [templateLiteral ["After let declaration: ", ""] [readVar "myLet"]]),
  ifStmt 29 (lit (.bool true)) [
    letDecl 30 "blockLet" (some (lit (.str "I exist only inside this block"))),
    exprStmt 31 (consoleLog [readVar "blockLet"]) ],
  tryCatch 38
    [exprStmt 39
      (consoleLog [templateLiteral ["Before const declaration: ", ""] [readVar "myConst"]])]
    "e" [exprStmt 41 (consoleLog [readVar "e"])],
  constDecl 44 "myConst" (lit (.str "I am a constant")),
  exprStmt 45 (consoleLog [templateLiteral ["After const declaration: ", ""] [readVar "myConst"]]),
  ifStmt 48 (lit (.bool true)) [
    constDecl 49 "blockConst" (lit (.str "I exist only inside this block")),
    exprStmt 50 (consoleLog [readVar "blockConst"]) ],
  tryCatch 55
    [exprStmt 56 (assign "myConst" (lit (.str "New Value")))]
    "e" [exprStmt 58 (consoleLog [readVar "e"])],
  letDecl 66 "num" (some (lit (.num (.fin 100)))),
  exprStmt 67 (consoleLog [templateLiteral ["Number type: ", ""] [typeofVar "num"]]),
  letDecl 70 "str" (some (lit (.str "Hello, World!"))),
  exprStmt 71 (consoleLog [templateLiteral ["String type: ", ""] [typeofVar "str"]]),
  letDecl 74 "isTrue" (some (lit (.bool true))),
  exprStmt 75 (consoleLog [templateLiteral ["Boolean type: ", ""] [typeofVar "isTrue"]]),
  letDecl 78 "obj" (some (recordLiteral [("name", .str "John"), ("age", .num (.fin 25))])),
  exprStmt 79 (consoleLog [templateLiteral ["Object type: ", ""] [typeofVar "obj"]]),
  letDecl 82 "arr" (some (arrayLiteral [.num (.fin 1), .num (.fin 2), .num (.fin 3)])),
  exprStmt 83 (consoleLog [templateLiteral ["Array type (object): ", ""] [typeofVar "arr"]]),
  letDecl 86 "notAssigned" none,
  exprStmt 87 (consoleLog [templateLiteral ["Undefined type: ", ""] [typeofVar "notAssigned"]]),
  letDecl 90 "emptyValue" (some (lit .null)),
  exprStmt 91
    (consoleLog [templateLiteral ["Null type (bugged as object): ", ""] [typeofVar "emptyValue"]]),
  letDecl 94 "uniqueKey" (some symbolCall),
  exprStmt 95 (consoleLog [templateLiteral ["Symbol type: ", ""] [typeofVar "uniqueKey"]]),
  exprStmt 102 (consoleLog [templateLiteral ["Before var hoisting: ", ""] [readVar "hoistedVar"]]),
  varDecl 103 "hoistedVar" (lit (.str "Hoisted!")),
  exprStmt 104 (consoleLog [templateLiteral ["After var hoisting: ", ""] [readVar "hoistedVar"]]),
  tryCatch 107
    [exprStmt 108
      (consoleLog [templateLiteral ["Before let hoisting: ", ""] [readVar "hoistedLet"]])]
    "e" [exprStmt 110 (consoleLog [readVar "e"])],
  letDecl 112 "hoistedLet" (some (lit (.str "Hoisted but inaccessible before initialization"))),
  exprStmt 113 (consoleLog [templateLiteral ["After let hoisting: ", ""] [readVar "hoistedLet"]]),
  tryCatch 115
    [exprStmt 116
      (consoleLog [templateLiteral ["Before const hoisting: ", ""] [readVar "hoistedConst"]])]
    "e" [exprStmt 118 (consoleLog [readVar "e"])],
  constDecl 120 "hoistedConst" (lit (.str "Hoisted but inaccessible before initialization")),
  exprStmt 121
    (consoleLog [templateLiteral ["After const hoisting: ", ""] [readVar "hoistedConst"]]),
  constDecl 128 "person" (recordLiteral [("name", .str "Alice"), ("age", .num (.fin 30))]),
  exprStmt 129 (memberAssign (readVar "person") "age" (lit (.num (.fin 31)))),
  exprStmt 130 (consoleLog [lit (.str "Modified const object:"), readVar "person"]),
  tryCatch 132
    [exprStmt 133
      (assign "person" (recordLiteral [("name", .str "Bob"), ("age", .num (.fin 40))]))]
    "e" [exprStmt 135 (consoleLog [readVar "e"])],
  constDecl 138 "numbers" (arrayLiteral [.num (.fin 1), .num (.fin 2), .num (.fin 3)]),
  exprStmt 139 (arrayPush (readVar "numbers") (lit (.num (.fin 4)))),
  exprStmt 140 (consoleLog [lit (.str "Modified const array:"), readVar "numbers"]),
  tryCatch 142
    [exprStmt 143
      (assign "numbers" (arrayLiteral [.num (.fin 5), .num (.fin 6), .num (.fin 7)]))]
    "e" [exprStmt 145 (consoleLog [readVar "e"])] ]

end Variables

namespace Funtions

/-- `function greet() { console.log('Hello, World!'); }` (`funtions.js`, lines 8-10). -/
def greet : FunctionDef :=
  { label := "greet", params := [],
    body := [exprStmt 9 (consoleLog [lit (.str "Hello, World!")])] }

/-- The function expression assigned to `sayHello` (`funtions.js`, lines 25-27). -/
def sayHello : FunctionDef :=
  { label := "sayHello", params := [],
    body := [exprStmt 26 (consoleLog [lit (.str "Hi there!")])] }

/-- The arrow function `(a, b) => a + b` assigned to `addNumbers`
(`funtions.js`, line 38). -/
def addNumbers : FunctionDef :=
  { label := "addNumbers", params := ["a", "b"],
    body := [returnStmt 38 (addValues (readVar "a") (readVar "b"))] }

/-- The anonymous function passed to `setTimeout` (`funtions.js`, lines 49-51). -/
def timeoutCallback : FunctionDef :=
  { label := "anonymous@49", params := [],
    body := [exprStmt 50
      (consoleLog [lit (.str "This is an anonymous function inside setTimeout")])] }

/-- The immediately invoked function expression (`funtions.js`, lines 60-62). -/
def iife : FunctionDef :=
  { label := "anonymous@60", params := [],
    body := [exprStmt 61
      (consoleLog [lit (.str "This function runs immediately after it is defined")])] }

/-- `function multiply(a, b) { return a * b; }` (`funtions.js`, lines 73-75). -/
def multiply : FunctionDef :=
  { label := "multiply", params := ["a", "b"],
    body := [returnStmt 74 (mulValues (readVar "a") (readVar "b"))] }

/-- The arrow function `(a, b) => a / b` assigned to `divide` (`funtions.js`,
line 84). -/
def divide : FunctionDef :=
  { label := "divide", params := ["a", "b"],
    body := [returnStmt 84 (divValues (readVar "a") (readVar "b"))] }

/-- The functions of `funtions.js`, lines 1-85. -/
def functions : List FunctionDef :=
  [greet, sayHello, addNumbers, timeoutCallback, iife, multiply, divide]

/-- The script `funtions.js` up to line 85, statement by statement.  The
declarations further down the file are not referenced in this part. -/
def script : List Stmt := [
  exprStmt 6 (call functions (readVar "greet") []),
  functionDecl 8 greet,
  tryCatch 19
    [exprStmt 20 (call functions (readVar "sayHello") [])]
    "e" [exprStmt 22 (consoleLog [readVar "e"])],
  constDecl 25 "sayHello" (functionExpr sayHello),
  exprStmt 29 (call functions (readVar "sayHello") []),
  constDecl 38 "addNumbers" (functionExpr addNumbers),
  exprStmt 39 (consoleLog [templateLiteral ["Arrow Function Output: ", ""]
    [call functions (readVar "addNumbers") [lit (.num (.fin 5)), lit (.num (.fin 10))]]]),
  exprStmt 49 (setTimeoutCall (functionExpr timeoutCallback) (.fin 1000)),
  exprStmt 60 (call functions (functionExpr iife) []),
  exprStmt 71 (consoleLog
    [call functions (readVar "multiply") [lit (.num (.fin 2)), lit (.num (.fin 3))]]),
  functionDecl 73 multiply,
  tryCatch 78
    [exprStmt 79 (consoleLog
      [call functions (readVar "divide") [lit (.num (.fin 10)), lit (.num (.fin 2))]])]
    "e" [exprStmt 81 (consoleLog [readVar "e"])],
  constDecl 84 "divide" (functionExpr divide),
  exprStmt 85 (consoleLog
    [call functions (readVar "divide") [lit (.num (.fin 10)), lit (.num (.fin 2))]]) ]

end Funtions

/-! ## Part 4: properties -/

/-- The state of a normal completion. -/
def Completion.state? {α : Type} : Completion α → Option State
  | .normal _ s => some s
  | _ => none

/-- The result of a normal completion. -/
def Completion.result? {α : Type} : Completion α → Option α
  | .normal a _ => some a
  | _ => none

/-- The value thrown by an abrupt completion. -/
def Completion.error? {α : Type} : Completion α → Option Value
  | .thrown e _ => some e
  | _ => none

/-- Position of the top-level statement on source line `line`. -/
def indexOfLine (body : List Stmt) (line : Nat) : Nat :=
  body.findIdx (fun st => decide (st.line = line))

/-- The state just before the top-level statement on `line` starts. -/
def stateBefore (body : List Stmt) (line : Nat) : Option State :=
  (runPrefix body (indexOfLine body line)).state?

/-- The state just after the top-level statement on `line` has completed. -/
def stateAfter (body : List Stmt) (line : Nat) : Option State :=
  (runPrefix body (indexOfLine body line + 1)).state?

/-- Position of the top-level statement that declares `x` (its declaring
statement). -/
def declIndex (body : List Stmt) (x : String) : Nat :=
  body.findIdx (fun st => st.lexical.any (fun b => decide (b.name = x)) || st.vars.contains x)

/-- A read of `x` at program point `k`: after the first `k` top-level
statements have run. -/
def readAt (body : List Stmt) (k : Nat) (x : String) : Completion Value :=
  match runPrefix body k with
  | .normal _ s => readVar x s
  | .thrown e s => .thrown e s
  | .returned v s => .returned v s
  | .unsupported => .unsupported

/-- A call `f(args...)` at program point `k`. -/
def callAt (table : List FunctionDef) (body : List Stmt) (k : Nat) (f : String)
    (args : List Value) : Completion Value :=
  match runPrefix body k with
  | .normal _ s => call table (readVar f) (args.map lit) s
  | .thrown e s => .thrown e s
  | .returned v s => .returned v s
  | .unsupported => .unsupported

/-- What the binding `x` holds in state `s`, records and arrays shown with
their contents. -/
def State.contents (s : State) (x : String) : Option Printed :=
  match lookup x s.scopes with
  | some b =>
    match b.value with
    | some v => printValue s v
    | none => none
  | none => none

/-- The state a script ends in (the initial state if it does not complete
normally). -/
def finalState (body : List Stmt) : State :=
  ((runScript body).state?).getD (initialState body)

/-- The scope chain of a state, empty if there is none. -/
def scopesOf (o : Option State) : List Scope := (o.map (fun s => s.scopes)).getD []

/-- The heap of a state, empty if there is none. -/
def heapOf (o : Option State) : List HeapObj := (o.map (fun s => s.heap)).getD []

/-- The console of a state, empty if there is none. -/
def consoleOf (o : Option State) : List (List Printed) := (o.map (fun s => s.console)).getD []

/-- The error value a console line reports. -/
def reportedError : List Printed → Option Value
  | [.prim (.error kind message)] => some (.error kind message)
  | _ => none

/-- Source lines of the statements of a script that are outside every `try`
block and `catch` handler, in source order. -/
def linesOutsideTry (body : List Stmt) : List Nat :=
  ((stmtLines false body).filter (fun p => !p.2)).map (fun p => p.1)

/-- Source lines of the `try` statements at the top level of a script. -/
def tryLines (body : List Stmt) : List Nat :=
  (body.filter (fun st => st.nested.any (fun p => p.2))).map (fun st => st.line)

/-! ### Exactness of Number arithmetic on integers up to `2^53` -/

theorem excessBits_of_lt (fuel m : Nat) (h : m < 9007199254740992) : excessBits fuel m = 0 := by
  cases fuel with
  | zero => rfl
  | succ n => simp [excessBits, h]

theorem roundMagnitude_of_lt (m : Nat) (h : m < 9007199254740992) : roundMagnitude m = m := by
  simp [roundMagnitude, excessBits_of_lt m m h]

theorem roundMagnitude_of_le (m : Nat) (h : m ≤ 9007199254740992) : roundMagnitude m = m := by
  rcases Nat.lt_or_eq_of_le h with h | h
  · exact roundMagnitude_of_lt m h
  · subst h; decide

theorem roundToDouble_of_natAbs_le (n : Int) (h : n.natAbs ≤ 9007199254740992) :
    roundToDouble n = .fin n := by
  have hlt : ¬ (n.natAbs ≥ 2 ^ 1024) := by
    have : (9007199254740992 : Nat) < 2 ^ 1024 := by norm_num
    omega
  simp only [roundToDouble, roundMagnitude_of_le _ h, if_neg hlt]
  split
  · congr 1; omega
  · congr 1; omega

theorem roundMagnitude_of_mod (m : Nat) (h : m % 2 ^ excessBits m m = 0) :
    roundMagnitude m = m := by
  have hhalf : 0 < 2 ^ (excessBits m m - 1) := Nat.pow_pos (by norm_num)
  have hcond : ¬ (excessBits m m ≠ 0 ∧ (m % 2 ^ excessBits m m > 2 ^ (excessBits m m - 1) ∨
      (m % 2 ^ excessBits m m = 2 ^ (excessBits m m - 1) ∧ m / 2 ^ excessBits m m % 2 = 1))) := by
    rw [h]; intro hc; omega
  simp only [roundMagnitude, if_neg hcond]
  exact Nat.div_mul_cancel (Nat.dvd_of_mod_eq_zero h)

theorem roundMagnitude_mod (m : Nat) (h : roundMagnitude m = m) :
    m % 2 ^ excessBits m m = 0 := by
  have : roundMagnitude m % 2 ^ excessBits m m = 0 := by
    simp only [roundMagnitude]
    exact Nat.mul_mod_left _ _
  rwa [h] at this

/-- Rounding leaves exactly the doubles fixed. -/
theorem isDouble_iff (n : Int) : isDouble n ↔ roundToDouble n = .fin n := by
  constructor
  · rintro ⟨hlt, hmod⟩
    have hnot : ¬ (n.natAbs ≥ 2 ^ 1024) := by omega
    simp only [roundToDouble, roundMagnitude_of_mod _ hmod, if_neg hnot]
    split
    · congr 1; omega
    · congr 1; omega
  · intro h
    simp only [roundToDouble] at h
    split at h
    · split at h <;> cases h
    · rename_i hlt
      have hm : roundMagnitude n.natAbs = n.natAbs := by
        split at h
        · injection h with h; omega
        · injection h with h; omega
      exact ⟨by rw [hm] at hlt; omega, roundMagnitude_mod _ hm⟩

theorem isDouble_of_natAbs_le (n : Int) (h : n.natAbs ≤ 9007199254740992) : isDouble n :=
  (isDouble_iff n).mpr (roundToDouble_of_natAbs_le n h)

theorem ofInt_of_isDouble (n : Int) (h : isDouble n) : Number.ofInt n = .fin n :=
  (isDouble_iff n).mp h

/-! ### The operations keep the representation invariant -/

theorem excessBits_spec (fuel m : Nat) (h : m < 9007199254740992 * 2 ^ fuel) :
    (m < 9007199254740992 ∧ excessBits fuel m = 0) ∨
    (0 < excessBits fuel m ∧ 4503599627370496 * 2 ^ excessBits fuel m ≤ m ∧
      m < 9007199254740992 * 2 ^ excessBits fuel m) := by
  induction fuel generalizing m with
  | zero => left; simp at h; exact ⟨h, rfl⟩
  | succ f ih =>
    by_cases hm : m < 9007199254740992
    · left; exact ⟨hm, by simp [excessBits, hm]⟩
    · right
      have hstep : excessBits (f + 1) m = excessBits f (m / 2) + 1 := by simp [excessBits, hm]
      have hhalf : m / 2 < 9007199254740992 * 2 ^ f := by
        rw [pow_succ] at h; omega
      rw [hstep]
      rcases ih (m / 2) hhalf with ⟨hlt, h0⟩ | ⟨hpos, hlo, hhi⟩
      · rw [h0]; simp; omega
      · refine ⟨by omega, ?_, ?_⟩
        · rw [pow_succ]; generalize 2 ^ excessBits f (m / 2) = p at *; omega
        · rw [pow_succ]; generalize 2 ^ excessBits f (m / 2) = p at *; omega

theorem lt_bound_self (m : Nat) : m < 9007199254740992 * 2 ^ m := by
  have := Nat.lt_two_pow m
  nlinarith

theorem excessBits_unique (m s : Nat) (hs : 0 < s) (hlo : 4503599627370496 * 2 ^ s ≤ m)
    (hhi : m < 9007199254740992 * 2 ^ s) : excessBits m m = s := by
  have h1 : 2 ≤ 2 ^ s := by
    calc 2 = 2 ^ 1 := by norm_num
      _ ≤ 2 ^ s := Nat.pow_le_pow_right (by norm_num) hs
  rcases excessBits_spec m m (lt_bound_self m) with ⟨hlt, _⟩ | ⟨hpos, hlo', hhi'⟩
  · exfalso; omega
  · by_contra hne
    rcases Nat.lt_or_gt_of_ne hne with hlt | hgt
    · have : 2 ^ (excessBits m m + 1) ≤ 2 ^ s := Nat.pow_le_pow_right (by norm_num) hlt
      rw [pow_succ] at this
      generalize 2 ^ excessBits m m = p at *
      generalize 2 ^ s = q at *
      omega
    · have : 2 ^ (s + 1) ≤ 2 ^ excessBits m m := Nat.pow_le_pow_right (by norm_num) hgt
      rw [pow_succ] at this
      generalize 2 ^ excessBits m m = p at *
      generalize 2 ^ s = q at *
      omega

theorem mul_pow_isRounded (q s : Nat) (hs : 0 < s) (hlo : 4503599627370496 ≤ q)
    (hhi : q ≤ 9007199254740992) :
    (q * 2 ^ s) % 2 ^ excessBits (q * 2 ^ s) (q * 2 ^ s) = 0 := by
  have hp : 0 < 2 ^ s := Nat.pow_pos (by norm_num)
  rcases Nat.lt_or_eq_of_le hhi with hlt | heq
  · have hu : excessBits (q * 2 ^ s) (q * 2 ^ s) = s :=
      excessBits_unique _ s hs (Nat.mul_le_mul_right _ hlo) (Nat.mul_lt_mul_of_pos_right hlt hp)
    rw [hu]; exact Nat.mul_mod_left _ _
  · have hk : q * 2 ^ s = 4503599627370496 * 2 ^ (s + 1) := by
      rw [heq, pow_succ]; omega
    have hu : excessBits (q * 2 ^ s) (q * 2 ^ s) = s + 1 := by
      rw [hk]
      have hp' : 0 < 2 ^ (s + 1) := Nat.pow_pos (by norm_num)
      exact excessBits_unique _ (s + 1) (by omega) (le_refl _)
        (Nat.mul_lt_mul_of_pos_right (by norm_num) hp')
    rw [hu, hk]; exact Nat.mul_mod_left _ _

theorem roundMagnitude_isRounded (m : Nat) :
    roundMagnitude m % 2 ^ excessBits (roundMagnitude m) (roundMagnitude m) = 0 := by
  rcases excessBits_spec m m (lt_bound_self m) with ⟨hlt, h0⟩ | ⟨hpos, hlo, hhi⟩
  · have hm : roundMagnitude m = m := roundMagnitude_of_mod m (by rw [h0]; simp [Nat.mod_one])
    rw [hm, h0]; simp [Nat.mod_one]
  · have hp : 0 < 2 ^ excessBits m m := Nat.pow_pos (by norm_num)
    have hq1 : 4503599627370496 ≤ m / 2 ^ excessBits m m :=
      (Nat.le_div_iff_mul_le hp).mpr hlo
    have hq2 : m / 2 ^ excessBits m m < 9007199254740992 :=
      (Nat.div_lt_iff_lt_mul hp).mpr hhi
    simp only [roundMagnitude]
    split
    · exact mul_pow_isRounded _ _ hpos (by omega) (by omega)
    · exact mul_pow_isRounded _ _ hpos hq1 (by omega)

/-- Whatever is rounded, the result is a Number. -/
theorem roundToDouble_wellFormed (n : Int) : (roundToDouble n).wellFormed := by
  simp only [roundToDouble]
  split
  · split <;> trivial
  · rename_i hlt
    split
    · refine ⟨?_, ?_⟩
      · simp only [Int.natAbs_neg, Int.natAbs_ofNat]; omega
      · simp only [Int.natAbs_neg, Int.natAbs_ofNat]; exact roundMagnitude_isRounded _
    · refine ⟨?_, ?_⟩
      · simp only [Int.natAbs_ofNat]; omega
      · simp only [Int.natAbs_ofNat]; exact roundMagnitude_isRounded _

theorem Number.add_wellFormed (x y : Number) : (x.add y).wellFormed := by
  cases x <;> cases y <;> first | exact roundToDouble_wellFormed _ | trivial

theorem Number.mul_wellFormed (x y : Number) : (x.mul y).wellFormed := by
  cases x <;> cases y <;>
    first
    | exact roundToDouble_wellFormed _
    | trivial
    | (simp only [Number.mul]; split <;> [trivial; (split <;> trivial)])

theorem foldl_add_exact (xs : List Int) (a : Int)
    (h : ∀ k, k ≤ xs.length → isDouble (a + (xs.take k).sum)) :
    (xs.map Number.fin).foldl (fun acc num => Number.add acc num) (Number.fin a)
      = Number.fin (a + xs.sum) := by
  induction xs generalizing a with
  | nil => simp
  | cons x rest ih =>
    have h1 : isDouble (a + x) := by
      have := h 1 (by simp)
      simpa using this
    have hstep : (Number.fin a).add (.fin x) = .fin (a + x) := by
      simp only [Number.add]
      exact (isDouble_iff _).mp h1
    have hrest : ∀ k, k ≤ rest.length → isDouble (a + x + (rest.take k).sum) := by
      intro k hk
      have := h (k + 1) (by simpa using hk)
      simpa [List.take_succ_cons, List.sum_cons, add_assoc] using this
    simp only [List.map_cons, List.foldl_cons, hstep, List.sum_cons]
    rw [ih (a + x) hrest, add_assoc]

theorem map_ofInt_eq (xs : List Int) (hx : ∀ x ∈ xs, isDouble x) :
    xs.map Number.ofInt = xs.map Number.fin :=
  List.map_congr_left (fun x hxs => ofInt_of_isDouble x (hx x hxs))

/-! ### C7: `addNumbers` -/

/-- C7, as amended: for all integers `a` and `b` that are Numbers
(integer-valued doubles), `addNumbers(a, b)` returns a Number, and it returns
`a + b` exactly when `a + b` is itself a Number, which it is whenever its
absolute value is at most `2^53`. -/
theorem addNumbers_exact (a b : Int) (ha : isDouble a) (hb : isDouble b) :
    (addNumbers (.ofInt a) (.ofInt b) = .fin (a + b) ↔ isDouble (a + b)) ∧
    ((a + b).natAbs ≤ 9007199254740992 → addNumbers (.ofInt a) (.ofInt b) = .fin (a + b)) ∧
    (addNumbers (.ofInt a) (.ofInt b)).wellFormed := by
  rw [ofInt_of_isDouble a ha, ofInt_of_isDouble b hb]
  refine ⟨?_, ?_, Number.add_wellFormed _ _⟩
  · simp only [addNumbers, Number.add]
    exact (isDouble_iff _).symm
  · intro h
    simp only [addNumbers, Number.add]
    exact roundToDouble_of_natAbs_le _ h

/-- C7, instances: `addNumbers(5, 10)` returns `15`, and
`addNumbers(9007199254740992, 2)` returns `9007199254740994`. -/
theorem addNumbers_exact_witness :
    addNumbers (.ofInt 5) (.ofInt 10) = .fin 15 ∧
    addNumbers (.ofInt 9007199254740992) (.ofInt 2) = .fin 9007199254740994 :=
  ⟨(addNumbers_exact 5 10 (by decide) (by decide)).2.1 (by decide),
   (addNumbers_exact 9007199254740992 2 (by decide) (by decide)).1.mpr (by decide)⟩

/-- C7 as stated fails: `2^53` and `1` are both Numbers, and
`addNumbers(9007199254740992, 1)` returns `9007199254740992`, not their sum. -/
theorem addNumbers_counterexample :
    roundToDouble 9007199254740992 = .fin 9007199254740992 ∧
    roundToDouble 1 = .fin 1 ∧
    addNumbers (.fin 9007199254740992) (.fin 1) = .fin 9007199254740992 ∧
    addNumbers (.fin 9007199254740992) (.fin 1) ≠ .fin (9007199254740992 + 1) := by
  decide

/-! ### C1: `sumAll` -/

/-- C1, as amended: for every finite list `xs` of integers that are Numbers
(integer-valued doubles) and whose running sums (left to right) are all
Numbers too, `sumAll(...xs)` returns the left fold of `xs` with addition from
`0`, which is the sum of `xs`.  Every integer of absolute value at most `2^53`
is a Number. -/
theorem sumAll_exact (xs : List Int) (hx : ∀ x ∈ xs, isDouble x)
    (h : ∀ k, k ≤ xs.length → isDouble ((xs.take k).sum)) :
    sumAll (xs.map Number.ofInt) = .fin (xs.foldl (fun acc x => acc + x) 0) ∧
    sumAll (xs.map Number.ofInt) = .fin xs.sum ∧
    (∀ n : Int, n.natAbs ≤ 9007199254740992 → isDouble n) := by
  have key : sumAll (xs.map Number.ofInt) = .fin xs.sum := by
    have := foldl_add_exact xs 0 (by simpa using h)
    rw [map_ofInt_eq xs hx]
    simpa [sumAll] using this
  refine ⟨?_, key, isDouble_of_natAbs_le⟩
  rw [key, List.sum_eq_foldl]

/-- C1, instances: `sumAll()` returns `0`, `sumAll(1, 2, 3, 4, 5)` returns `15`,
and `sumAll(9007199254740992, 2, 2)` returns `9007199254740996`. -/
theorem sumAll_exact_witness :
    sumAll ([].map Number.ofInt) = .fin 0 ∧
    sumAll ([1, 2, 3, 4, 5].map Number.ofInt) = .fin 15 ∧
    sumAll ([9007199254740992, 2, 2].map Number.ofInt) = .fin 9007199254740996 :=
  ⟨(sumAll_exact [] (by decide) (by decide)).2.1,
   (sumAll_exact [1, 2, 3, 4, 5] (by decide) (by decide)).2.1,
   (sumAll_exact [9007199254740992, 2, 2] (by decide) (by decide)).2.1⟩

/-- C1 as stated fails: `2^53` is a Number, and `sumAll(9007199254740992, 1, 1)` returns
`9007199254740992`, not the sum `9007199254740994` (which the same arguments
in the order `1, 1, 9007199254740992` do give). -/
theorem sumAll_counterexample :
    roundToDouble 9007199254740992 = .fin 9007199254740992 ∧
    sumAll [.fin 9007199254740992, .fin 1, .fin 1] = .fin 9007199254740992 ∧
    sumAll [.fin 9007199254740992, .fin 1, .fin 1]
      ≠ .fin ([9007199254740992, 1, 1].foldl (fun acc x => acc + x) 0) ∧
    sumAll [.fin 1, .fin 1, .fin 9007199254740992] = .fin 9007199254740994 := by
  decide

/-! ### C2: `outerFunction` -/

/-- C2, as amended: for all integers `outerValue` and `innerValue` that are
Numbers (integer-valued doubles), the function returned by
`outerFunction(outerValue)`, invoked afterwards with `innerValue`, yields a
Number, and it yields `outerValue + innerValue` exactly when that sum is
itself a Number, which it is whenever its absolute value is at most `2^53`. -/
theorem outerFunction_exact (outerValue innerValue : Int)
    (ho : isDouble outerValue) (hi : isDouble innerValue) :
    ((outerFunction (.ofInt outerValue)) (.ofInt innerValue) = .fin (outerValue + innerValue)
      ↔ isDouble (outerValue + innerValue)) ∧
    ((outerValue + innerValue).natAbs ≤ 9007199254740992 →
      (outerFunction (.ofInt outerValue)) (.ofInt innerValue)
        = .fin (outerValue + innerValue)) ∧
    ((outerFunction (.ofInt outerValue)) (.ofInt innerValue)).wellFormed := by
  rw [ofInt_of_isDouble outerValue ho, ofInt_of_isDouble innerValue hi]
  refine ⟨?_, ?_, Number.add_wellFormed _ _⟩
  · simp only [outerFunction, Number.add]
    exact (isDouble_iff _).symm
  · intro h
    simp only [outerFunction, Number.add]
    exact roundToDouble_of_natAbs_le _ h

/-- C2, instances: `addWith5 = outerFunction(5)` invoked with `10` yields `15`,
and `outerFunction(9007199254740992)(4)` yields `9007199254740996`. -/
theorem outerFunction_exact_witness :
    addWith5 (.ofInt 10) = .fin 15 ∧
    (outerFunction (.ofInt 9007199254740992)) (.ofInt 4) = .fin 9007199254740996 :=
  ⟨(outerFunction_exact 5 10 (by decide) (by decide)).2.1 (by decide),
   (outerFunction_exact 9007199254740992 4 (by decide) (by decide)).1.mpr (by decide)⟩

/-- C2 as stated fails: `outerFunction(9007199254740992)(3)` yields
`9007199254740996`, not `9007199254740995`. -/
theorem outerFunction_counterexample :
    roundToDouble 9007199254740992 = .fin 9007199254740992 ∧
    outerFunction (.fin 9007199254740992) (.fin 3) = .fin 9007199254740996 ∧
    outerFunction (.fin 9007199254740992) (.fin 3) ≠ .fin (9007199254740992 + 3) := by
  decide

/-! ### C3: `generateSequence` -/

theorem Generator.after_completed (n : Nat) : Generator.completed.after n = .completed := by
  induction n with
  | zero => rfl
  | succ k ih => simp [Generator.after, ih, Generator.next]

theorem Generator.after_add (g : Generator) (m n : Nat) :
    g.after (m + n) = (g.after m).after n := by
  induction n with
  | zero => rfl
  | succ k ih => simp [← Nat.add_assoc, Generator.after, ih]

theorem generateSequence_after_ge_four (n : Nat) (h : 4 ≤ n) :
    generateSequence.after n = .completed := by
  obtain ⟨k, rfl⟩ := Nat.exists_eq_add_of_le h
  rw [Generator.after_add]
  have : generateSequence.after 4 = .completed := by decide
  rw [this, Generator.after_completed]

/-- C3: a fresh instance of `generateSequence()` yields `1`, `2`, `3` (not done)
on its first three `next()` requests; every later request produces no value
and reports completion, and no request after the first yields `1`. -/
theorem generateSequence_yields_then_exhausted :
    generateSequence.nthResult 1 = ⟨some (.fin 1), false⟩ ∧
    generateSequence.nthResult 2 = ⟨some (.fin 2), false⟩ ∧
    generateSequence.nthResult 3 = ⟨some (.fin 3), false⟩ ∧
    (∀ n, 3 < n → generateSequence.nthResult n = ⟨none, true⟩) ∧
    (∀ n, 1 < n → (generateSequence.nthResult n).value ≠ some (.fin 1)) := by
  have late : ∀ n, 3 < n → generateSequence.nthResult n = ⟨none, true⟩ := by
    intro n hn
    rcases Nat.lt_or_ge n 5 with h5 | h5
    · have : n = 4 := by omega
      subst this; decide
    · simp [Generator.nthResult, generateSequence_after_ge_four (n - 1) (by omega),
        Generator.next]
  refine ⟨by decide, by decide, by decide, late, ?_⟩
  intro n hn
  rcases Nat.lt_or_ge 3 n with h3 | h3
  · rw [late n h3]; decide
  · have : n = 2 ∨ n = 3 := by omega
    rcases this with rfl | rfl <;> decide

/-- C3, instances: the fourth and the tenth `next()` report completion without
a value, and the second does not yield `1`. -/
theorem generateSequence_yields_then_exhausted_witness :
    generateSequence.nthResult 4 = ⟨none, true⟩ ∧
    generateSequence.nthResult 10 = ⟨none, true⟩ ∧
    (generateSequence.nthResult 2).value ≠ some (.fin 1) :=
  ⟨generateSequence_yields_then_exhausted.2.2.2.1 4 (by decide),
   generateSequence_yields_then_exhausted.2.2.2.1 10 (by decide),
   generateSequence_yields_then_exhausted.2.2.2.2 2 (by decide)⟩

/-! ### C4: block-scoped bindings -/

theorem declIndex_le_length (body : List Stmt) (x : String) :
    declIndex body x ≤ body.length :=
  List.findIdx_le_length _

set_option maxRecDepth 100000 in
theorem variables_blockScoped_bounded : ∀ k, k ≤ 47 →
    ∀ p ∈ [("myLet", Value.str "I am a let variable"),
           ("myConst", Value.str "I am a constant"),
           ("hoistedLet", Value.str "Hoisted but inaccessible before initialization"),
           ("hoistedConst", Value.str "Hoisted but inaccessible before initialization")],
      (k ≤ declIndex Variables.script p.1 →
        (readAt Variables.script k p.1).error? = some (uninitializedAccessError p.1)) ∧
      (declIndex Variables.script p.1 < k →
        (readAt Variables.script k p.1).result? = some p.2) := by
  decide!

set_option maxRecDepth 100000 in
theorem funtions_blockScoped_bounded : ∀ k, k ≤ 14 →
    ∀ p ∈ [("sayHello", Value.func "sayHello"), ("divide", Value.func "divide")],
      (k ≤ declIndex Funtions.script p.1 →
        (readAt Funtions.script k p.1).error? = some (uninitializedAccessError p.1)) ∧
      (declIndex Funtions.script p.1 < k →
        (readAt Funtions.script k p.1).result? = some p.2) := by
  decide!

theorem variables_script_length : Variables.script.length = 47 := by decide!

theorem funtions_script_length : Funtions.script.length = 14 := by decide!

set_option maxRecDepth 100000 in
theorem scripts_blockScoped_reads :
    (finalState Variables.script).caught.filter
        (fun c => c.2 ≠ immutableReassignmentError)
      = [(19, uninitializedAccessError "myLet"), (38, uninitializedAccessError "myConst"),
         (107, uninitializedAccessError "hoistedLet"),
         (115, uninitializedAccessError "hoistedConst")] ∧
    (finalState Funtions.script).caught
      = [(19, uninitializedAccessError "sayHello"), (78, uninitializedAccessError "divide")] ∧
    (∀ line ∈ [[Printed.prim (.str "After let declaration: I am a let variable")],
               [.prim (.str "After const declaration: I am a constant")],
               [.prim (.str
                 "After let hoisting: Hoisted but inaccessible before initialization")],
               [.prim (.str
                 "After const hoisting: Hoisted but inaccessible before initialization")]],
      line ∈ (finalState Variables.script).console) := by
  decide!

/-- C4: at every program point `k` of `variables.js` (resp. `funtions.js`), a
read of `myLet`, `myConst`, `hoistedLet`, `hoistedConst` (resp. `sayHello`,
`divide`) fails with the uninitialized-access error if the point lies before
the binding's declaring statement, and returns exactly the value that
statement assigns if the point lies after it.  The reads the scripts
themselves perform ahead of the declarations (inside the `try` statements on
lines 19, 38, 107, 115 of `variables.js` and 19, 78 of `funtions.js`) are
caught with that error, and the reads after the declarations print the
assigned values. -/
theorem blockScoped_read_before_fails_after_returns (k : Nat) :
    (∀ p ∈ [("myLet", Value.str "I am a let variable"),
            ("myConst", Value.str "I am a constant"),
            ("hoistedLet", Value.str "Hoisted but inaccessible before initialization"),
            ("hoistedConst", Value.str "Hoisted but inaccessible before initialization")],
      (k ≤ declIndex Variables.script p.1 →
        (readAt Variables.script k p.1).error? = some (uninitializedAccessError p.1)) ∧
      (declIndex Variables.script p.1 < k → k ≤ Variables.script.length →
        (readAt Variables.script k p.1).result? = some p.2)) ∧
    (∀ p ∈ [("sayHello", Value.func "sayHello"), ("divide", Value.func "divide")],
      (k ≤ declIndex Funtions.script p.1 →
        (readAt Funtions.script k p.1).error? = some (uninitializedAccessError p.1)) ∧
      (declIndex Funtions.script p.1 < k → k ≤ Funtions.script.length →
        (readAt Funtions.script k p.1).result? = some p.2)) ∧
    (finalState Variables.script).caught.filter
        (fun c => c.2 ≠ immutableReassignmentError)
      = [(19, uninitializedAccessError "myLet"), (38, uninitializedAccessError "myConst"),
         (107, uninitializedAccessError "hoistedLet"),
         (115, uninitializedAccessError "hoistedConst")] ∧
    (finalState Funtions.script).caught
      = [(19, uninitializedAccessError "sayHello"), (78, uninitializedAccessError "divide")] ∧
    (∀ line ∈ [[Printed.prim (.str "After let declaration: I am a let variable")],
               [.prim (.str "After const declaration: I am a constant")],
               [.prim (.str
                 "After let hoisting: Hoisted but inaccessible before initialization")],
               [.prim (.str
                 "After const hoisting: Hoisted but inaccessible before initialization")]],
      line ∈ (finalState Variables.script).console) := by
  refine ⟨?_, ?_, scripts_blockScoped_reads⟩
  · intro p hp
    have hd := declIndex_le_length Variables.script p.1
    rw [variables_script_length] at hd ⊢
    constructor
    · intro h
      exact (variables_blockScoped_bounded k (by omega) p hp).1 h
    · intro h hk
      exact (variables_blockScoped_bounded k hk p hp).2 h
  · intro p hp
    have hd := declIndex_le_length Funtions.script p.1
    rw [funtions_script_length] at hd ⊢
    constructor
    · intro h
      exact (funtions_blockScoped_bounded k (by omega) p hp).1 h
    · intro h hk
      exact (funtions_blockScoped_bounded k hk p hp).2 h

set_option maxRecDepth 100000 in
/-- C4, instances: before any statement of `variables.js` has run a read of
`myLet` fails, and at the end of the script it returns `'I am a let variable'`;
in `funtions.js` a read of `divide` fails just before line 84 and returns the
arrow function just after it. -/
theorem blockScoped_read_before_fails_after_returns_witness :
    (readAt Variables.script 0 "myLet").error? = some (uninitializedAccessError "myLet") ∧
    (readAt Variables.script 47 "myLet").result? = some (.str "I am a let variable") ∧
    (readAt Funtions.script 12 "divide").error? = some (uninitializedAccessError "divide") ∧
    (readAt Funtions.script 13 "divide").result? = some (.func "divide") :=
  ⟨((blockScoped_read_before_fails_after_returns 0).1 ("myLet", .str "I am a let variable")
      (by simp)).1 (by decide!),
   ((blockScoped_read_before_fails_after_returns 47).1 ("myLet", .str "I am a let variable")
      (by simp)).2 (by decide!) (by decide!),
   ((blockScoped_read_before_fails_after_returns 12).2.1 ("divide", .func "divide")
      (by simp)).1 (by decide!),
   ((blockScoped_read_before_fails_after_returns 13).2.1 ("divide", .func "divide")
      (by simp)).2 (by decide!) (by decide!)⟩

/-! ### C5: hoisted-mutable bindings -/

set_option maxRecDepth 100000 in
theorem variables_hoistedMutable_bounded : ∀ k, k ≤ 47 →
    ∀ p ∈ [("myVar", Value.str "I am a var variable"), ("hoistedVar", Value.str "Hoisted!")],
      (k ≤ declIndex Variables.script p.1 →
        (readAt Variables.script k p.1).result? = some .undefined) ∧
      (declIndex Variables.script p.1 < k →
        (readAt Variables.script k p.1).result? = some p.2) := by
  decide!

set_option maxRecDepth 100000 in
theorem variables_var_console :
    [.prim (.str "Before var declaration: undefined")] ∈ (finalState Variables.script).console ∧
    [.prim (.str "After var declaration: I am a var variable")]
      ∈ (finalState Variables.script).console ∧
    [.prim (.str "Before var hoisting: undefined")] ∈ (finalState Variables.script).console ∧
    [.prim (.str "After var hoisting: Hoisted!")] ∈ (finalState Variables.script).console := by
  decide!

/-- C5: at every program point `k` of `variables.js`, a read of `myVar` or
`hoistedVar` completes normally; it returns `undefined` if the point lies
before the binding's declaring statement and the assigned value
(`'I am a var variable'`, `'Hoisted!'`) if it lies after.  The four reads the
script itself performs print accordingly. -/
theorem hoistedMutable_read_before_undefined_after_value (k : Nat) :
    (∀ p ∈ [("myVar", Value.str "I am a var variable"), ("hoistedVar", Value.str "Hoisted!")],
      (k ≤ declIndex Variables.script p.1 →
        (readAt Variables.script k p.1).result? = some .undefined) ∧
      (declIndex Variables.script p.1 < k → k ≤ Variables.script.length →
        (readAt Variables.script k p.1).result? = some p.2)) ∧
    [.prim (.str "Before var declaration: undefined")] ∈ (finalState Variables.script).console ∧
    [.prim (.str "After var declaration: I am a var variable")]
      ∈ (finalState Variables.script).console ∧
    [.prim (.str "Before var hoisting: undefined")] ∈ (finalState Variables.script).console ∧
    [.prim (.str "After var hoisting: Hoisted!")] ∈ (finalState Variables.script).console := by
  refine ⟨?_, variables_var_console⟩
  intro p hp
  have hd := declIndex_le_length Variables.script p.1
  rw [variables_script_length] at hd ⊢
  constructor
  · intro h
    exact (variables_hoistedMutable_bounded k (by omega) p hp).1 h
  · intro h hk
    exact (variables_hoistedMutable_bounded k hk p hp).2 h

set_option maxRecDepth 100000 in
/-- C5, instances: before any statement has run a read of `hoistedVar` returns
`undefined`; at the end of the script it returns `'Hoisted!'`. -/
theorem hoistedMutable_read_before_undefined_after_value_witness :
    (readAt Variables.script 0 "hoistedVar").result? = some .undefined ∧
    (readAt Variables.script 47 "hoistedVar").result? = some (.str "Hoisted!") :=
  ⟨((hoistedMutable_read_before_undefined_after_value 0).1 ("hoistedVar", .str "Hoisted!")
      (by simp)).1 (by decide!),
   ((hoistedMutable_read_before_undefined_after_value 47).1 ("hoistedVar", .str "Hoisted!")
      (by simp)).2 (by decide!) (by decide!)⟩

/-! ### C8: every error is caught where it is raised -/

set_option maxRecDepth 100000 in
/-- C8, as amended: `variables.js` runs to its last statement and completes
normally; its `try` statements are those on lines 19, 38, 55, 107, 115, 132,
142 and each catches exactly one error (uninitialized access or immutable
reassignment), seven in all, each reported on the console by its handler;
every statement outside a `try` block is executed exactly once; the top-level
statements are executed in source order, and so are all the statements
outside a `try` block other than the call on line 13, which starts before the
body of `testVarScope` (lines 10-11) that it runs. -/
theorem variables_errors_caught_locally :
    runScript Variables.script = .normal () (finalState Variables.script) ∧
    tryLines Variables.script = [19, 38, 55, 107, 115, 132, 142] ∧
    (finalState Variables.script).caught =
      [(19, uninitializedAccessError "myLet"),
       (38, uninitializedAccessError "myConst"),
       (55, immutableReassignmentError),
       (107, uninitializedAccessError "hoistedLet"),
       (115, uninitializedAccessError "hoistedConst"),
       (132, immutableReassignmentError),
       (142, immutableReassignmentError)] ∧
    (finalState Variables.script).console.filterMap reportedError =
      (finalState Variables.script).caught.map (fun c => c.2) ∧
    (∀ l ∈ linesOutsideTry Variables.script, (finalState Variables.script).trace.count l = 1) ∧
    (finalState Variables.script).trace.filter
        (fun l => l ∈ Variables.script.map (fun st => st.line))
      = Variables.script.map (fun st => st.line) ∧
    (finalState Variables.script).trace.filter
        (fun l => l ∈ linesOutsideTry Variables.script ∧ l ≠ 13)
      = (linesOutsideTry Variables.script).filter (fun l => l ≠ 13) ∧
    (linesOutsideTry Variables.script).Pairwise (fun l m => l < m) ∧
    ((stateAfter Variables.script 13).map (fun s => s.trace))
      = ((stateBefore Variables.script 13).map (fun s => s.trace ++ [13, 10, 11])) := by
  decide!

set_option maxRecDepth 100000 in
/-- C8, instances: the statement on line 25, the first after the `try`
statement on line 19, is executed exactly once, and so is line 10 in the body
of `testVarScope`. -/
theorem variables_errors_caught_locally_witness :
    (finalState Variables.script).trace.count 25 = 1 ∧
    (finalState Variables.script).trace.count 10 = 1 :=
  ⟨variables_errors_caught_locally.2.2.2.2.1 25 (by decide!),
   variables_errors_caught_locally.2.2.2.2.1 10 (by decide!)⟩

set_option maxRecDepth 100000 in
/-- C8 as stated fails: the statements outside a `try` block are not executed
in source order.  In source order they begin 4, 5, 6, 9, 10, 11, 13; they are
executed in the order 4, 5, 6, 9, 13, 10, 11, the call on line 13 starting
before lines 10 and 11. -/
theorem variables_source_order_counterexample :
    (linesOutsideTry Variables.script).take 7 = [4, 5, 6, 9, 10, 11, 13] ∧
    (finalState Variables.script).trace.take 7 = [4, 5, 6, 9, 13, 10, 11] ∧
    (finalState Variables.script).trace.filter (fun l => l ∈ linesOutsideTry Variables.script)
      ≠ linesOutsideTry Variables.script := by
  decide!

/-! ### C6: `const` bindings cannot be reassigned, their contents can be mutated -/

theorem assignVar_const (s : State) (x : String) (v : Value) (b : Binding)
    (hb : lookup x s.scopes = some b) (hk : b.kind = .constKind) (hv : b.value.isSome) :
    assignVar x v s = .thrown immutableReassignmentError s := by
  obtain ⟨w, hw⟩ := Option.isSome_iff_exists.mp hv
  simp [assignVar, hb, hw, hk]

theorem readVar_initialized (s : State) (x : String) (b : Binding) (w : Value)
    (hb : lookup x s.scopes = some b) (hw : b.value = some w) :
    readVar x s = .normal w s := by
  simp [readVar, hb, hw]

theorem memberAssign_record (s : State) (x key : String) (v : Value) (b : Binding) (a : Nat)
    (fields : List (String × Value))
    (hb : lookup x s.scopes = some b) (hw : b.value = some (.ref a))
    (ha : s.heap.get? a = some (.record fields)) :
    memberAssign (readVar x) key (lit v) s =
      .normal v { s with heap := s.heap.set a (.record (setField key v fields)) } := by
  rw [List.get?_eq_getElem?] at ha
  simp [memberAssign, bind, Eval.bind, lit, pure, Eval.pure, readVar_initialized s x b _ hb hw, ha]

theorem arrayPush_array (s : State) (x : String) (v : Value) (b : Binding) (a : Nat)
    (elems : List Value)
    (hb : lookup x s.scopes = some b) (hw : b.value = some (.ref a))
    (ha : s.heap.get? a = some (.array elems)) :
    arrayPush (readVar x) (lit v) s =
      .normal (.num (.fin (elems.length + 1)))
        { s with heap := s.heap.set a (.array (elems ++ [v])) } := by
  rw [List.get?_eq_getElem?] at ha
  simp [arrayPush, bind, Eval.bind, lit, pure, Eval.pure, readVar_initialized s x b _ hb hw, ha]

set_option maxRecDepth 100000 in
theorem variables_const_facts :
    (finalState Variables.script).caught.filter (fun c => c.2 = immutableReassignmentError)
      = [(55, immutableReassignmentError), (132, immutableReassignmentError),
         (142, immutableReassignmentError)] ∧
    (stateBefore Variables.script 55).bind (fun s => s.contents "myConst")
      = some (.prim (.str "I am a constant")) ∧
    (stateBefore Variables.script 132).bind (fun s => s.contents "person")
      = some (.record [("name", .str "Alice"), ("age", .num (.fin 31))]) ∧
    (stateBefore Variables.script 142).bind (fun s => s.contents "numbers")
      = some (.array [.num (.fin 1), .num (.fin 2), .num (.fin 3), .num (.fin 4)]) ∧
    (stateBefore Variables.script 129).bind (fun s => s.contents "person")
      = some (.record [("name", .str "Alice"), ("age", .num (.fin 30))]) ∧
    (stateAfter Variables.script 129).bind (fun s => s.contents "person")
      = some (.record [("name", .str "Alice"), ("age", .num (.fin 31))]) ∧
    (stateBefore Variables.script 139).bind (fun s => s.contents "numbers")
      = some (.array [.num (.fin 1), .num (.fin 2), .num (.fin 3)]) ∧
    (stateAfter Variables.script 139).bind (fun s => s.contents "numbers")
      = some (.array [.num (.fin 1), .num (.fin 2), .num (.fin 3), .num (.fin 4)]) := by
  decide!

/-- C6: in any state, a write to an identifier that resolves to an initialized
`const` binding throws the immutable-reassignment error, whatever the binding
holds and whatever is written; a member assignment through a binding that
holds a record, and a `push` through a binding that holds an array, complete
normally and update the heap object.  In `variables.js` the three
reassignments (lines 56, 133, 143, of a string, a record and an array) are
the errors caught by the `try` statements on lines 55, 132, 142; `person.age
= 31` turns the record into `{ name: 'Alice', age: 31 }` and `numbers.push(4)`
turns the array into `[1, 2, 3, 4]`. -/
theorem const_reassign_fails_mutation_succeeds :
    (∀ (s : State) (x : String) (v : Value) (b : Binding),
      lookup x s.scopes = some b → b.kind = .constKind → b.value.isSome →
      assignVar x v s = .thrown immutableReassignmentError s) ∧
    (∀ (s : State) (x key : String) (v : Value) (b : Binding) (a : Nat)
      (fields : List (String × Value)),
      lookup x s.scopes = some b → b.kind = .constKind → b.value = some (.ref a) →
      s.heap.get? a = some (.record fields) →
      memberAssign (readVar x) key (lit v) s =
        .normal v { s with heap := s.heap.set a (.record (setField key v fields)) }) ∧
    (∀ (s : State) (x : String) (v : Value) (b : Binding) (a : Nat) (elems : List Value),
      lookup x s.scopes = some b → b.kind = .constKind → b.value = some (.ref a) →
      s.heap.get? a = some (.array elems) →
      arrayPush (readVar x) (lit v) s =
        .normal (.num (.fin (elems.length + 1)))
          { s with heap := s.heap.set a (.array (elems ++ [v])) }) ∧
    (finalState Variables.script).caught.filter (fun c => c.2 = immutableReassignmentError)
      = [(55, immutableReassignmentError), (132, immutableReassignmentError),
         (142, immutableReassignmentError)] ∧
    (stateBefore Variables.script 55).bind (fun s => s.contents "myConst")
      = some (.prim (.str "I am a constant")) ∧
    (stateBefore Variables.script 132).bind (fun s => s.contents "person")
      = some (.record [("name", .str "Alice"), ("age", .num (.fin 31))]) ∧
    (stateBefore Variables.script 142).bind (fun s => s.contents "numbers")
      = some (.array [.num (.fin 1), .num (.fin 2), .num (.fin 3), .num (.fin 4)]) ∧
    (stateBefore Variables.script 129).bind (fun s => s.contents "person")
      = some (.record [("name", .str "Alice"), ("age", .num (.fin 30))]) ∧
    (stateAfter Variables.script 129).bind (fun s => s.contents "person")
      = some (.record [("name", .str "Alice"), ("age", .num (.fin 31))]) ∧
    (stateBefore Variables.script 139).bind (fun s => s.contents "numbers")
      = some (.array [.num (.fin 1), .num (.fin 2), .num (.fin 3)]) ∧
    (stateAfter Variables.script 139).bind (fun s => s.contents "numbers")
      = some (.array [.num (.fin 1), .num (.fin 2), .num (.fin 3), .num (.fin 4)]) :=
  ⟨assignVar_const,
   fun s x key v b a fields hb _ hw ha => memberAssign_record s x key v b a fields hb hw ha,
   fun s x v b a elems hb _ hw ha => arrayPush_array s x v b a elems hb hw ha,
   variables_const_facts⟩

set_option maxRecDepth 100000 in
/-- C6, instances in the state `variables.js` ends in: writing to `person`
throws and leaves the state as it was, `person.age = 32` and `numbers.push(5)`
complete normally. -/
theorem const_reassign_fails_mutation_succeeds_witness :
    assignVar "person" (.str "New Value") (finalState Variables.script)
      = .thrown immutableReassignmentError (finalState Variables.script) ∧
    memberAssign (readVar "person") "age" (lit (.num (.fin 32))) (finalState Variables.script)
      = .normal (.num (.fin 32))
          { finalState Variables.script with
            heap := (finalState Variables.script).heap.set 2
              (.record (setField "age" (.num (.fin 32))
                [("name", .str "Alice"), ("age", .num (.fin 31))])) } ∧
    arrayPush (readVar "numbers") (lit (.num (.fin 5))) (finalState Variables.script)
      = .normal (.num (.fin (([.num (.fin 1), .num (.fin 2), .num (.fin 3), .num (.fin 4)] :
            List Value).length + 1)))
          { finalState Variables.script with
            heap := (finalState Variables.script).heap.set 4
              (.array ([.num (.fin 1), .num (.fin 2), .num (.fin 3), .num (.fin 4)]
                ++ [.num (.fin 5)])) } :=
  ⟨const_reassign_fails_mutation_succeeds.1 (finalState Variables.script) "person"
      (.str "New Value") ⟨"person", .constKind, some (.ref 2)⟩ (by decide!) rfl rfl,
   const_reassign_fails_mutation_succeeds.2.1 (finalState Variables.script) "person" "age"
      (.num (.fin 32)) ⟨"person", .constKind, some (.ref 2)⟩ 2
      [("name", .str "Alice"), ("age", .num (.fin 31))] (by decide!) rfl rfl (by decide!),
   const_reassign_fails_mutation_succeeds.2.2.1 (finalState Variables.script) "numbers"
      (.num (.fin 5)) ⟨"numbers", .constKind, some (.ref 4)⟩ 4
      [.num (.fin 1), .num (.fin 2), .num (.fin 3), .num (.fin 4)] (by decide!) rfl rfl
      (by decide!)⟩

/-! ### C10: a failed reassignment changes no binding -/

theorem assignVar_thrown_state (x : String) (v : Value) (s s' : State) (e : Value)
    (h : assignVar x v s = .thrown e s') : s' = s := by
  unfold assignVar at h
  split at h
  · cases h
  · split at h
    · cases h; rfl
    · split at h
      · cases h; rfl
      · cases h

set_option maxRecDepth 100000 in
theorem variables_failed_writes_frame :
    (∀ line ∈ [55, 132, 142],
      (stateBefore Variables.script line).isSome ∧
      (stateAfter Variables.script line).isSome ∧
      scopesOf (stateAfter Variables.script line) = scopesOf (stateBefore Variables.script line) ∧
      (heapOf (stateAfter Variables.script line)).take
          (heapOf (stateBefore Variables.script line)).length
        = heapOf (stateBefore Variables.script line)) ∧
    (stateAfter Variables.script 55).bind (fun s => s.contents "myConst")
      = some (.prim (.str "I am a constant")) ∧
    (stateAfter Variables.script 132).bind (fun s => s.contents "person")
      = some (.record [("name", .str "Alice"), ("age", .num (.fin 31))]) ∧
    (stateAfter Variables.script 142).bind (fun s => s.contents "numbers")
      = some (.array [.num (.fin 1), .num (.fin 2), .num (.fin 3), .num (.fin 4)]) ∧
    (finalState Variables.script).contents "myConst" = some (.prim (.str "I am a constant")) ∧
    (finalState Variables.script).contents "person"
      = some (.record [("name", .str "Alice"), ("age", .num (.fin 31))]) ∧
    (finalState Variables.script).contents "numbers"
      = some (.array [.num (.fin 1), .num (.fin 2), .num (.fin 3), .num (.fin 4)]) := by
  decide!

/-- C10: a write that throws leaves the state exactly as it was.  In
`variables.js`, across each of the `try` statements on lines 55, 132 and 142
(whose assignment fails and is caught) the scope chain, hence every binding,
is unchanged and every heap object that existed before is unchanged; after
them `myConst` still holds `'I am a constant'`, `person` still holds
`{ name: 'Alice', age: 31 }` and `numbers` still holds `[1, 2, 3, 4]`, also
at the end of the script. -/
theorem failed_reassignment_is_atomic :
    (∀ (x : String) (v : Value) (s s' : State) (e : Value),
      assignVar x v s = .thrown e s' → s' = s) ∧
    (∀ line ∈ [55, 132, 142],
      (stateBefore Variables.script line).isSome ∧
      (stateAfter Variables.script line).isSome ∧
      scopesOf (stateAfter Variables.script line) = scopesOf (stateBefore Variables.script line) ∧
      (heapOf (stateAfter Variables.script line)).take
          (heapOf (stateBefore Variables.script line)).length
        = heapOf (stateBefore Variables.script line)) ∧
    (stateAfter Variables.script 55).bind (fun s => s.contents "myConst")
      = some (.prim (.str "I am a constant")) ∧
    (stateAfter Variables.script 132).bind (fun s => s.contents "person")
      = some (.record [("name", .str "Alice"), ("age", .num (.fin 31))]) ∧
    (stateAfter Variables.script 142).bind (fun s => s.contents "numbers")
      = some (.array [.num (.fin 1), .num (.fin 2), .num (.fin 3), .num (.fin 4)]) ∧
    (finalState Variables.script).contents "myConst" = some (.prim (.str "I am a constant")) ∧
    (finalState Variables.script).contents "person"
      = some (.record [("name", .str "Alice"), ("age", .num (.fin 31))]) ∧
    (finalState Variables.script).contents "numbers"
      = some (.array [.num (.fin 1), .num (.fin 2), .num (.fin 3), .num (.fin 4)]) :=
  ⟨assignVar_thrown_state, variables_failed_writes_frame⟩

set_option maxRecDepth 100000 in
/-- C10, instances: in the final state of `variables.js` the write
`numbers = ...` throws and hands back that very state, and the `try`
statement on line 132 leaves the scope chain as it found it. -/
theorem failed_reassignment_is_atomic_witness :
    assignVar "numbers" (.ref 5) (finalState Variables.script)
      = .thrown immutableReassignmentError (finalState Variables.script) ∧
    finalState Variables.script = finalState Variables.script ∧
    scopesOf (stateAfter Variables.script 132) = scopesOf (stateBefore Variables.script 132) :=
  ⟨by decide!,
   failed_reassignment_is_atomic.1 "numbers" (.ref 5) (finalState Variables.script)
      (finalState Variables.script) immutableReassignmentError (by decide!),
   (failed_reassignment_is_atomic.2.1 132 (by decide)).2.2.1⟩

/-! ### C9: function declarations are initialized from the start of the scope -/

theorem call_multiply (s : State) (a b : Number)
    (h : lookup "multiply" s.scopes = some ⟨"multiply", .functionKind, some (.func "multiply")⟩) :
    (call Funtions.functions (readVar "multiply") [lit (.num a), lit (.num b)] s).result?
      = some (.num (multiply a b)) := by
  simp [call, bind, Eval.bind, readVar, h, evalArgs, lit, pure, Eval.pure, callFunction,
    Funtions.functions, Funtions.greet, Funtions.sayHello, Funtions.addNumbers,
    Funtions.timeoutCallback, Funtions.iife, Funtions.multiply, Funtions.divide,
    List.find?, execStmts, returnStmt, mulValues, bindParams, hoist, blockScope, lookup,
    Scope.find, Completion.result?, multiply]

set_option maxRecDepth 100000 in
theorem funtions_hoisted_bounded : ∀ k, k ≤ 14 →
    (runPrefix Funtions.script k).state?.map (fun s => lookup "multiply" s.scopes)
      = some (some ⟨"multiply", .functionKind, some (.func "multiply")⟩) ∧
    (callAt Funtions.functions Funtions.script k "greet" []).result? = some .undefined ∧
    (callAt Funtions.functions Funtions.script k "greet" []).state?.map (fun s => s.console)
      = (runPrefix Funtions.script k).state?.map
          (fun s => s.console ++ [[.prim (.str "Hello, World!")]]) := by
  decide!

set_option maxRecDepth 100000 in
theorem funtions_hoisted_calls :
    indexOfLine Funtions.script 6 < declIndex Funtions.script "greet" ∧
    (stateAfter Funtions.script 6).isSome ∧
    consoleOf (stateAfter Funtions.script 6)
      = consoleOf (stateBefore Funtions.script 6) ++ [[.prim (.str "Hello, World!")]] ∧
    indexOfLine Funtions.script 71 < declIndex Funtions.script "multiply" ∧
    (stateAfter Funtions.script 71).isSome ∧
    consoleOf (stateAfter Funtions.script 71)
      = consoleOf (stateBefore Funtions.script 71) ++ [[.prim (.num (.fin 6))]] := by
  decide!

/-- C9, as amended: at every program point `k` of `funtions.js` (lines 1-85),
from the very start of the script and in particular before the declarations
of `multiply` and `greet` in source order, the call `multiply(a, b)` with
integers `a`, `b` that are Numbers (integer-valued doubles) does not fail and
returns a Number, which is `a * b` exactly when `a * b` is itself a Number, as
it is whenever its absolute value is at most `2^53`; and the call `greet()`
does not fail and prints `'Hello, World!'`.  The script's own calls `greet()`
(line 6) and `multiply(2, 3)` (line 71) precede the declarations, complete
normally and print `'Hello, World!'` and `6`. -/
theorem function_declarations_hoisted (a b : Int) (ha : isDouble a) (hb : isDouble b)
    (k : Nat) (hk : k ≤ Funtions.script.length) :
    (callAt Funtions.functions Funtions.script k "multiply"
        [.num (.ofInt a), .num (.ofInt b)]).result?
      = some (.num (multiply (.fin a) (.fin b))) ∧
    (multiply (.fin a) (.fin b)).wellFormed ∧
    (multiply (.fin a) (.fin b) = .fin (a * b) ↔ isDouble (a * b)) ∧
    ((a * b).natAbs ≤ 9007199254740992 →
      (callAt Funtions.functions Funtions.script k "multiply"
          [.num (.ofInt a), .num (.ofInt b)]).result?
        = some (.num (.fin (a * b)))) ∧
    (callAt Funtions.functions Funtions.script k "greet" []).result? = some .undefined ∧
    (callAt Funtions.functions Funtions.script k "greet" []).state?.map (fun s => s.console)
      = (runPrefix Funtions.script k).state?.map
          (fun s => s.console ++ [[.prim (.str "Hello, World!")]]) ∧
    indexOfLine Funtions.script 6 < declIndex Funtions.script "greet" ∧
    (stateAfter Funtions.script 6).isSome ∧
    consoleOf (stateAfter Funtions.script 6)
      = consoleOf (stateBefore Funtions.script 6) ++ [[.prim (.str "Hello, World!")]] ∧
    indexOfLine Funtions.script 71 < declIndex Funtions.script "multiply" ∧
    (stateAfter Funtions.script 71).isSome ∧
    consoleOf (stateAfter Funtions.script 71)
      = consoleOf (stateBefore Funtions.script 71) ++ [[.prim (.num (.fin 6))]] := by
  rw [funtions_script_length] at hk
  obtain ⟨hm, hg1, hg2⟩ := funtions_hoisted_bounded k hk
  have hcall : (callAt Funtions.functions Funtions.script k "multiply"
      [.num (.ofInt a), .num (.ofInt b)]).result?
      = some (.num (multiply (.fin a) (.fin b))) := by
    rw [ofInt_of_isDouble a ha, ofInt_of_isDouble b hb]
    unfold callAt
    cases hr : runPrefix Funtions.script k with
    | normal u s =>
      rw [hr] at hm
      simp only [Completion.state?, Option.map_some', Option.some.injEq] at hm
      have := call_multiply s (.fin a) (.fin b) hm
      simpa using this
    | thrown e s => rw [hr] at hm; simp [Completion.state?] at hm
    | returned v s => rw [hr] at hm; simp [Completion.state?] at hm
    | unsupported => rw [hr] at hm; simp [Completion.state?] at hm
  refine ⟨hcall, Number.mul_wellFormed _ _, ?_, ?_, hg1, hg2, funtions_hoisted_calls⟩
  · simp only [multiply, Number.mul]
    exact (isDouble_iff _).symm
  · intro h
    rw [hcall]
    simp only [multiply, Number.mul]
    rw [roundToDouble_of_natAbs_le _ h]

set_option maxRecDepth 100000 in
/-- C9, instances: before any statement of `funtions.js` has run, `multiply(2, 3)`
returns `6`; just before line 71 `multiply(-4, 5)` returns `-20` and
`multiply(134217728, 134217728)` returns `18014398509481984`. -/
theorem function_declarations_hoisted_witness :
    (callAt Funtions.functions Funtions.script 0 "multiply"
      [.num (.ofInt 2), .num (.ofInt 3)]).result? = some (.num (.fin 6)) ∧
    (callAt Funtions.functions Funtions.script 9 "multiply"
      [.num (.ofInt (-4)), .num (.ofInt 5)]).result? = some (.num (.fin (-20))) ∧
    multiply (.fin 134217728) (.fin 134217728) = .fin (134217728 * 134217728) :=
  ⟨(function_declarations_hoisted 2 3 (by decide) (by decide) 0 (by decide!)).2.2.2.1
      (by decide),
   (function_declarations_hoisted (-4) 5 (by decide) (by decide) 9 (by decide!)).2.2.2.1
      (by decide),
   (function_declarations_hoisted 134217728 134217728 (by decide) (by decide) 9
      (by decide!)).2.2.1.mpr (by decide)⟩

set_option maxRecDepth 100000 in
/-- C9 as stated fails: `134217729` is a Number, and the call
`multiply(134217729, 134217729)` just before line 71, ahead of the
declaration, returns `18014398777917440`, not the product
`18014398777917441`. -/
theorem function_declarations_hoisted_counterexample :
    roundToDouble 134217729 = .fin 134217729 ∧
    indexOfLine Funtions.script 71 = 9 ∧
    (callAt Funtions.functions Funtions.script 9 "multiply"
      [.num (.fin 134217729), .num (.fin 134217729)]).result?
      = some (.num (.fin 18014398777917440)) ∧
    (callAt Funtions.functions Funtions.script 9 "multiply"
      [.num (.fin 134217729), .num (.fin 134217729)]).result?
      ≠ some (.num (.fin (134217729 * 134217729))) := by
  decide!

end JsConcept
